import Mathlib

/-!
Shallow embedding of the recommender core in `src/backend/recommender.py`:
the item-item collaborative-filtering model (`ItemItemCFModel`), the push
attack (`simulate_attack`) and the outlier-clipping defense (`apply_defense`).

Modelling conventions:
* A pandas ratings DataFrame becomes a `Store`, a list of observations
  `(user_id, item_id, rating)` in row order.  User and item ids are `Int`
  (pandas int64 columns); ratings are `Real` (python floats modelled as
  exact reals).
* The dense matrices `R` and `S` are modelled as functions of the raw ids:
  the source's dense index of an id is its rank in the ascending sorted list
  of distinct ids, so indexing by rank and indexing by id are in bijection,
  and the ascending id order coincides with the ascending dense-index order.
* `numpy`'s seeded `Generator.choice(candidates, size=n, replace=False)`
  (a fixed-seed deterministic draw) is abstracted as an explicit `choice`
  parameter of `simulate_attack`; theorems assume only `ChoiceValid choice`,
  i.e. that it draws `n` distinct elements from its input, which the seeded
  NumPy draw satisfies.
* `np.argsort` on the negated score vector (followed by indexing the
  ascending candidate-index array) uses numpy's default quicksort, which
  guarantees a score-descending result but leaves the relative order of
  exactly tied scores unspecified.  The embedding (`rankedCandidates`) fixes
  one admissible refinement — a stable sort, ties in ascending index order —
  to stay executable; every theorem proved below about `recommendM` is
  invariant under which admissible order is produced, as the proofs use only
  that the ranked list is a permutation of the candidate set.  By contrast
  `DataFrame.sort_values(by=["mean","count"], ascending=[False,False])` with
  two keys is pandas' stable lexsort over the ascending-item-id grouped
  statistics, so the popularity order is modelled exactly.
* `pandas.groupby(...).apply` with a function that returns each group with
  its index unchanged reindexes the concatenated result to the original
  frame's index, so `apply_defense` is a positional, row-wise map.
* Movie titles and poster URLs are external collaborators (network / file
  I/O) and are omitted: a recommendation entry is the pair
  `(item_id, score)`.
-/

open Classical

structure Obs where
  user : Int
  item : Int
  rating : Real

abbrev Store := List Obs

/-- `numpy` mean of a list of reals (`ratings.mean()`): sum divided by
length; the empty list yields `0 / 0 = 0` under real division. -/
noncomputable def listMean (l : List Real) : Real := l.sum / l.length

/-- Population variance (`ratings.std()` squared, `ddof = 0`): mean of the
squared deviations from the mean. -/
noncomputable def listVar (l : List Real) : Real :=
  ((l.map (fun x => (x - listMean l) ^ 2)).sum) / l.length

/-- `numpy` population standard deviation (`ratings.std()`, no
degrees-of-freedom correction). -/
noncomputable def listStd (l : List Real) : Real := Real.sqrt (listVar l)

/-- The ratings of user `u`, in row order (`group["rating"].values` for the
group of `u` under `groupby("user_id")`). -/
def userRatings (df : Store) (u : Int) : List Real :=
  (df.filter (fun r => r.user == u)).map Obs.rating

/-- The ratings of item `i`, in row order (the `groupby("item_id")` group). -/
def itemRatings (df : Store) (i : Int) : List Real :=
  (df.filter (fun r => r.item == i)).map Obs.rating

/-- The rating count of item `i` (`movie_stats["count"]`). -/
def itemCount (df : Store) (i : Int) : Nat := (itemRatings df i).length

/-- The mean rating of item `i` (`movie_stats["mean"]`). -/
noncomputable def itemMean (df : Store) (i : Int) : Real := listMean (itemRatings df i)

/-- `np.clip(x, lo, hi) = np.minimum(hi, np.maximum(x, lo))`. -/
noncomputable def clipVal (lo hi x : Real) : Real := min hi (max x lo)

/-- `pandas.unique` on a column: the distinct values in first-occurrence
order. -/
def uniqueFirst : List Int → List Int
  | [] => []
  | a :: l => a :: uniqueFirst (l.filter (fun b => b != a))
termination_by l => l.length
decreasing_by
  simp only [List.length_cons]
  exact Nat.lt_succ_of_le (List.length_filter_le _ _)

/-- `simulate_attack(ratings_df, attacker_id, target_item_id, n_push_items,
extreme_rating)` from `src/backend/recommender.py`.  The seeded
`rng.choice(candidate_items, size=n_push_items, replace=False)` is the
`choice` parameter (see the module docstring). -/
def simulate_attack (choice : List Int → Nat → List Int) (df : Store)
    (attacker_id target_item_id : Int) (n_push_items : Nat)
    (extreme_rating : Real) : Store :=
  let all_items := uniqueFirst (df.map Obs.item)
  let candidate_items := all_items.filter (fun i => i != target_item_id)
  let push_items :=
    if n_push_items < candidate_items.length then
      choice candidate_items n_push_items
    else candidate_items
  df ++ (Obs.mk attacker_id target_item_id extreme_rating ::
    push_items.map (fun it => Obs.mk attacker_id it extreme_rating))

/-- What the seeded NumPy without-replacement draw guarantees: on a
duplicate-free pool it returns exactly `n` distinct elements of the pool. -/
def ChoiceValid (choice : List Int → Nat → List Int) : Prop :=
  ∀ l n, l.Nodup → n ≤ l.length →
    (choice l n).length = n ∧ (choice l n).Nodup ∧ ∀ a ∈ choice l n, a ∈ l

/-- A concrete valid draw used for witnesses: take the first `n` candidates. -/
def takeChoice : List Int → Nat → List Int := fun l n => l.take n

/-- The effect of `clip_user` on one observation: pass the row through when
its user's standard deviation is below `1e-6`, otherwise clip the rating to
`[mean - tau*std, mean + tau*std]` of that user's own ratings. -/
noncomputable def defenseRow (df : Store) (tau : Real) (r : Obs) : Obs :=
  if listStd (userRatings df r.user) < 1e-6 then r
  else ⟨r.user, r.item,
    clipVal (listMean (userRatings df r.user) - tau * listStd (userRatings df r.user))
      (listMean (userRatings df r.user) + tau * listStd (userRatings df r.user))
      r.rating⟩

/-- `apply_defense(ratings_df, tau)` from `src/backend/recommender.py`:
`groupby("user_id").apply(clip_user)` with `clip_user` returning each group
with its index unchanged, which pandas reindexes to the original frame's
row order; `reset_index(drop=True)` then renumbers.  The result is the
positional, row-wise map of `defenseRow`. -/
noncomputable def apply_defense (df : Store) (tau : Real) : Store :=
  df.map (defenseRow df tau)

/-- The distinct items of the store other than the target
(`candidate_items` in `simulate_attack`). -/
def otherItems (df : Store) (T : Int) : List Int :=
  (uniqueFirst (df.map Obs.item)).filter (fun i => i != T)

/-- The items actually pushed (`push_items` in `simulate_attack`). -/
def pushList (choice : List Int → Nat → List Int) (df : Store) (T : Int)
    (n : Nat) : List Int :=
  if n < (otherItems df T).length then choice (otherItems df T) n
  else otherItems df T

/-- The per-rating effect of the defense on a row of user `u`. -/
noncomputable def defenseFn (df : Store) (tau : Real) (u : Int) : Real → Real :=
  fun x =>
    if listStd (userRatings df u) < 1e-6 then x
    else clipVal (listMean (userRatings df u) - tau * listStd (userRatings df u))
      (listMean (userRatings df u) + tau * listStd (userRatings df u)) x

/-- The sorted distinct user ids of the store (`sorted(ratings["user_id"].unique())`);
position in this list is the dense user index. -/
def modelUsers (df : Store) : List Int :=
  List.insertionSort (fun a b => a ≤ b) (df.map Obs.user).dedup

/-- The sorted distinct item ids of the store (`sorted(ratings["item_id"].unique())`);
position in this list is the dense item index. -/
def modelItems (df : Store) : List Int :=
  List.insertionSort (fun a b => a ≤ b) (df.map Obs.item).dedup

/-- The rating matrix `R`, indexed by raw ids: the scatter-write loop
`R[u, i] = row.rating` over the rows in order, so the last matching row
wins and absent pairs stay `0`. -/
def Rmat (df : Store) (u i : Int) : Real :=
  df.foldl (fun acc r => if r.user = u ∧ r.item = i then r.rating else acc) 0

/-- Dot product of the item columns of `a` and `b` (`R[:,a] · R[:,b]`). -/
def dotI (df : Store) (a b : Int) : Real :=
  ((modelUsers df).map (fun u => Rmat df u a * Rmat df u b)).sum

/-- `np.linalg.norm` of item `a`'s column. -/
noncomputable def normI (df : Store) (a : Int) : Real := Real.sqrt (dotI df a a)

/-- The norm after the zero guard `norms[norms == 0] = 1e-8`. -/
noncomputable def normAdj (df : Store) (a : Int) : Real :=
  if normI df a = 0 then 1e-8 else normI df a

/-- The item-item cosine similarity matrix
`S = np.clip((R.T @ R) / (norms[None,:] * norms[:,None]), -1, 1)`,
indexed by raw item ids. -/
noncomputable def simM (df : Store) (a b : Int) : Real :=
  clipVal (-1) 1 (dotI df a b / (normAdj df a * normAdj df b))

/-- The items user `uid` has rated (`rated_mask`), in dense-index order. -/
noncomputable def ratedItems (df : Store) (uid : Int) : List Int :=
  (modelItems df).filter (fun i => decide (0 < Rmat df uid i))

/-- The predicted score of item `j` for user `uid`: the per-`j` loop body of
`recommend`.  Already-rated items are skipped (score stays `0`), items whose
similarity to every rated item is exactly `0` are skipped (score stays `0`),
otherwise the similarity-weighted mean with the `1e-8` denominator guard. -/
noncomputable def scoreAt (df : Store) (uid : Int) (j : Int) : Real :=
  if 0 < Rmat df uid j then 0
  else if ∀ i ∈ ratedItems df uid, simM df j i = 0 then 0
  else ((ratedItems df uid).map (fun i => simM df j i * Rmat df uid i)).sum /
    (((ratedItems df uid).map (fun i => |simM df j i|)).sum + 1e-8)

/-- `candidate_indices = np.where(scores > 0)[0]`: the items with strictly
positive predicted score, in ascending dense-index order. -/
noncomputable def candidateItems (df : Store) (uid : Int) : List Int :=
  (modelItems df).filter (fun j => decide (0 < scoreAt df uid j))

/-- The ranking order of `np.argsort(-candidate_scores)` applied to the
ascending candidate array: score descending, ties by dense index (item id)
ascending. -/
noncomputable def rankRel (df : Store) (uid : Int) (a b : Int) : Prop :=
  scoreAt df uid b < scoreAt df uid a ∨
    (scoreAt df uid a = scoreAt df uid b ∧ a ≤ b)

/-- The candidates ranked by descending predicted score (stable argsort). -/
noncomputable def rankedCandidates (df : Store) (uid : Int) : List Int :=
  List.insertionSort (rankRel df uid) (candidateItems df uid)

/-- The `sort_values(by=["mean","count"], ascending=[False,False])` order on
item ids: mean rating descending, then count descending, then (stability of
the sort over the ascending `groupby` order) item id ascending. -/
noncomputable def popRel (df : Store) (a b : Int) : Prop :=
  itemMean df b < itemMean df a ∨
    (itemMean df a = itemMean df b ∧
      (itemCount df b < itemCount df a ∨
        (itemCount df a = itemCount df b ∧ a ≤ b)))

/-- The precomputed popularity list `self.popular_items`: per-item mean and
count over the grouped ratings, items with `count >= 20` retained, sorted by
(mean desc, count desc); each entry keeps `(item_id, mean)`. -/
noncomputable def popularList (df : Store) : List (Int × Real) :=
  (List.insertionSort (popRel df)
      ((modelItems df).filter (fun i => decide (20 ≤ itemCount df i)))).map
    (fun i => (i, itemMean df i))

/-- Modelled from the spec: the popularity list as the specification
describes it, with the additional fallback clause "if this filtered set is
empty, fall back to using all items ranked the same way", a clause that has
no counterpart in `ItemItemCFModel.__init__`.  Used only to compare the
spec's claimed cold-start behavior against the code's. -/
noncomputable def popularListSpec (df : Store) : List (Int × Real) :=
  let qualified := (modelItems df).filter (fun i => decide (20 ≤ itemCount df i))
  let base := if qualified = [] then modelItems df else qualified
  (List.insertionSort (popRel df) base).map (fun i => (i, itemMean df i))

/-- `ItemItemCFModel.recommend(user_id, top_k)`: unknown user, or a user
with no rated item, or an empty candidate set falls back to the popularity
list; otherwise the ranked candidates, truncated to `top_k`, each paired
with its predicted score. -/
noncomputable def recommendM (df : Store) (uid : Int) (k : Nat) : List (Int × Real) :=
  if uid ∈ modelUsers df then
    if ratedItems df uid = [] then (popularList df).take k
    else if candidateItems df uid = [] then (popularList df).take k
    else ((rankedCandidates df uid).take k).map (fun j => (j, scoreAt df uid j))
  else (popularList df).take k

/-! ### Concrete stores used by witnesses and counterexamples -/

/-- Two users, two items; item 10 has column `(3,4)` of norm `5`, item 20
has column `(0,3)` of norm `3`, so all similarities are rational. -/
def dfW : Store := [⟨1, 10, 3⟩, ⟨2, 10, 4⟩, ⟨2, 20, 3⟩]

/-- Twenty users all rating the single item 1 with rating 4: the popularity
threshold `count >= 20` is met, and user 1 has rated every item. -/
def dfOne : Store :=
  [⟨1, 1, 4⟩, ⟨2, 1, 4⟩, ⟨3, 1, 4⟩, ⟨4, 1, 4⟩, ⟨5, 1, 4⟩,
   ⟨6, 1, 4⟩, ⟨7, 1, 4⟩, ⟨8, 1, 4⟩, ⟨9, 1, 4⟩, ⟨10, 1, 4⟩,
   ⟨11, 1, 4⟩, ⟨12, 1, 4⟩, ⟨13, 1, 4⟩, ⟨14, 1, 4⟩, ⟨15, 1, 4⟩,
   ⟨16, 1, 4⟩, ⟨17, 1, 4⟩, ⟨18, 1, 4⟩, ⟨19, 1, 4⟩, ⟨20, 1, 4⟩]

/-- User 1 rates item 1; users 2..21 rate item 2, which therefore passes the
popularity threshold but has similarity exactly `0` to item 1. -/
def dfZ : Store :=
  [⟨1, 1, 3⟩,
   ⟨2, 2, 4⟩, ⟨3, 2, 4⟩, ⟨4, 2, 4⟩, ⟨5, 2, 4⟩, ⟨6, 2, 4⟩,
   ⟨7, 2, 4⟩, ⟨8, 2, 4⟩, ⟨9, 2, 4⟩, ⟨10, 2, 4⟩, ⟨11, 2, 4⟩,
   ⟨12, 2, 4⟩, ⟨13, 2, 4⟩, ⟨14, 2, 4⟩, ⟨15, 2, 4⟩, ⟨16, 2, 4⟩,
   ⟨17, 2, 4⟩, ⟨18, 2, 4⟩, ⟨19, 2, 4⟩, ⟨20, 2, 4⟩, ⟨21, 2, 4⟩]

/-- One user with ratings `[1, 3]`: mean `2`, standard deviation `1`. -/
def dfC2 : Store := [⟨1, 1, 1⟩, ⟨1, 2, 3⟩]

/-- One user, three items, all ratings at most 5: the attack witness store. -/
def dfA : Store := [⟨1, 7, 3⟩, ⟨1, 8, 4⟩, ⟨1, 9, 2⟩]

/-- A store whose single rating on the target item exceeds the extreme
rating 5. -/
def dfC1 : Store := [⟨1, 7, 6⟩]

/-- A one-observation store: no item reaches the popularity threshold. -/
def dfT : Store := [⟨1, 1, 3⟩]

/-! ### General lemmas about the embedding -/

lemma mem_uniqueFirst {b : Int} : ∀ {l : List Int}, b ∈ uniqueFirst l ↔ b ∈ l := by
  intro l
  induction l using uniqueFirst.induct with
  | case1 => simp [uniqueFirst]
  | case2 a l ih =>
      rw [uniqueFirst]
      simp only [List.mem_cons, ih, List.mem_filter, bne_iff_ne, ne_eq]
      constructor
      · rintro (rfl | ⟨hb, _⟩)
        · exact Or.inl rfl
        · exact Or.inr hb
      · rintro (rfl | hb)
        · exact Or.inl rfl
        · by_cases hba : b = a
          · exact Or.inl hba
          · exact Or.inr ⟨hb, by simpa using hba⟩

lemma nodup_uniqueFirst : ∀ (l : List Int), (uniqueFirst l).Nodup := by
  intro l
  induction l using uniqueFirst.induct with
  | case1 => simp [uniqueFirst]
  | case2 a l ih =>
      rw [uniqueFirst]
      refine List.nodup_cons.mpr ⟨?_, ih⟩
      intro hmem
      have := mem_uniqueFirst.mp hmem
      simp at this

lemma dotI_comm (df : Store) (a b : Int) : dotI df a b = dotI df b a := by
  unfold dotI
  congr 1
  apply List.map_congr_left
  intro u _
  ring

lemma clipVal_le (lo hi x : Real) : clipVal lo hi x ≤ hi := min_le_left _ _

lemma le_clipVal (lo hi x : Real) (h : lo ≤ hi) : lo ≤ clipVal lo hi x :=
  le_min h (le_max_right _ _)

lemma clipVal_mem (lo hi x : Real) (h : lo ≤ hi) :
    lo ≤ clipVal lo hi x ∧ clipVal lo hi x ≤ hi :=
  ⟨le_clipVal lo hi x h, clipVal_le lo hi x⟩

/-- C4: for every ratings store, the item-item similarity matrix built at
model construction is symmetric and every entry lies in the closed interval
`[-1, 1]`.  Stated over all raw item ids, which subsumes all dense index
pairs `(i, j)` since the dense index is the rank of the id in the sorted
distinct item list. -/
theorem sim_symm_and_bounded (df : Store) (a b : Int) :
    simM df a b = simM df b a ∧ -1 ≤ simM df a b ∧ simM df a b ≤ 1 := by
  refine ⟨?_, ?_, ?_⟩
  · unfold simM
    rw [dotI_comm, mul_comm (normAdj df a)]
  · exact le_clipVal _ _ _ (by norm_num)
  · exact clipVal_le _ _ _

/-- C10: for every ratings store and every `tau`, `apply_defense` returns a
store with exactly as many observations as the input, and the `i`-th output
observation keeps the `i`-th input observation's `user_id` and `item_id`;
only the rating can change. -/
theorem apply_defense_frame (df : Store) (tau : Real) :
    (apply_defense df tau).length = df.length ∧
      (apply_defense df tau).map (fun r => (r.user, r.item)) =
        df.map (fun r => (r.user, r.item)) := by
  constructor
  · simp [apply_defense]
  · unfold apply_defense
    rw [List.map_map]
    apply List.map_congr_left
    intro r _
    by_cases h : listStd (userRatings df r.user) < 1e-6 <;>
      simp [defenseRow, h, Function.comp]

lemma defenseRow_user (df : Store) (tau : Real) (r : Obs) :
    (defenseRow df tau r).user = r.user := by
  unfold defenseRow
  split <;> rfl

lemma defenseRow_rating (df : Store) (tau : Real) (r : Obs) :
    (defenseRow df tau r).rating = defenseFn df tau r.user r.rating := by
  unfold defenseRow defenseFn
  split <;> rfl

lemma userRatings_apply_defense (df : Store) (tau : Real) (u : Int) :
    userRatings (apply_defense df tau) u =
      (userRatings df u).map (defenseFn df tau u) := by
  unfold apply_defense
  show ((df.map (defenseRow df tau)).filter (fun r => r.user == u)).map Obs.rating =
    ((df.filter (fun r => r.user == u)).map Obs.rating).map (defenseFn df tau u)
  rw [List.filter_map, List.map_map, List.map_map]
  have hfil : df.filter ((fun r => r.user == u) ∘ defenseRow df tau) =
      df.filter (fun r => r.user == u) := by
    apply List.filter_congr
    intro r _
    simp [Function.comp, defenseRow_user]
  rw [hfil]
  apply List.map_congr_left
  intro r hr
  have hu : r.user = u := by
    have := (List.mem_filter.mp hr).2
    simpa using this
  simp only [Function.comp]
  rw [defenseRow_rating, hu]

lemma mean_13 : listMean [(1:Real), 3] = 2 := by
  unfold listMean
  norm_num [List.sum_cons, List.sum_nil]

lemma var_13 : listVar [(1:Real), 3] = 1 := by
  unfold listVar
  rw [mean_13]
  norm_num [List.sum_cons, List.sum_nil]

lemma std_13 : listStd [(1:Real), 3] = 1 := by
  unfold listStd
  rw [var_13, Real.sqrt_one]

/-- C2 (amended, `0 ≤ tau`): for every ratings store and every nonnegative
`tau`, `apply_defense` leaves user `u`'s ratings exactly as they were when
the population standard deviation of `u`'s ratings is below `1e-6`, and
otherwise every output rating of `u` lies within the closed interval
`[mean_u - tau*std_u, mean_u + tau*std_u]` computed from `u`'s original
ratings. -/
theorem apply_defense_clips (df : Store) (tau : Real) (htau : 0 ≤ tau) (u : Int) :
    (listStd (userRatings df u) < 1e-6 ∧
        userRatings (apply_defense df tau) u = userRatings df u) ∨
      (1e-6 ≤ listStd (userRatings df u) ∧
        ∀ x ∈ userRatings (apply_defense df tau) u,
          listMean (userRatings df u) - tau * listStd (userRatings df u) ≤ x ∧
            x ≤ listMean (userRatings df u) + tau * listStd (userRatings df u)) := by
  by_cases h : listStd (userRatings df u) < 1e-6
  · left
    refine ⟨h, ?_⟩
    rw [userRatings_apply_defense]
    have hid : ∀ x ∈ userRatings df u, defenseFn df tau u x = id x := by
      intro x _
      unfold defenseFn
      rw [if_pos h]
      rfl
    rw [List.map_congr_left hid, List.map_id]
  · right
    refine ⟨not_lt.mp h, ?_⟩
    intro x hx
    rw [userRatings_apply_defense] at hx
    obtain ⟨y, _, rfl⟩ := List.mem_map.mp hx
    unfold defenseFn
    rw [if_neg h]
    apply clipVal_mem
    have hs : 0 ≤ listStd (userRatings df u) := Real.sqrt_nonneg _
    have := mul_nonneg htau hs
    linarith

/-- C2 witness: the amended theorem applied to the concrete store `dfC2`
with `tau = 1` and user `1`. -/
theorem apply_defense_clips_witness :
    (0:Real) ≤ 1 ∧
      ((listStd (userRatings dfC2 1) < 1e-6 ∧
          userRatings (apply_defense dfC2 1) 1 = userRatings dfC2 1) ∨
        (1e-6 ≤ listStd (userRatings dfC2 1) ∧
          ∀ x ∈ userRatings (apply_defense dfC2 1) 1,
            listMean (userRatings dfC2 1) - 1 * listStd (userRatings dfC2 1) ≤ x ∧
              x ≤ listMean (userRatings dfC2 1) + 1 * listStd (userRatings dfC2 1))) :=
  ⟨by norm_num, apply_defense_clips dfC2 1 (by norm_num) 1⟩

lemma userRatings_dfC2 : userRatings dfC2 1 = [1, 3] := rfl

lemma defenseFn_dfC2_neg (x : Real) : defenseFn dfC2 (-1) 1 x = min 1 (max x 3) := by
  unfold defenseFn clipVal
  rw [if_neg (by rw [userRatings_dfC2, std_13]; norm_num)]
  rw [userRatings_dfC2, std_13, mean_13]
  norm_num

/-- C2 counterexample: with `tau = -1` on the store `dfC2`, user 1's
standard deviation is `1` (not below `1e-6`), yet the second output rating
is `1`, which does not lie in the (empty) claimed interval
`[mean + std, mean - std] = [3, 1]`; so the claim fails for negative `tau`. -/
theorem apply_defense_clips_cex :
    ¬ listStd (userRatings dfC2 1) < 1e-6 ∧
      userRatings (apply_defense dfC2 (-1)) 1 = [1, 1] ∧
      ¬ (listMean (userRatings dfC2 1) - (-1) * listStd (userRatings dfC2 1) ≤ (1:Real) ∧
          (1:Real) ≤ listMean (userRatings dfC2 1) + (-1) * listStd (userRatings dfC2 1)) := by
  refine ⟨by rw [userRatings_dfC2, std_13]; norm_num, ?_,
    by rw [userRatings_dfC2, std_13, mean_13]; norm_num⟩
  rw [userRatings_apply_defense, userRatings_dfC2]
  simp only [List.map_cons, List.map_nil, defenseFn_dfC2_neg]
  norm_num

lemma listVar_const (l : List Real) (c : Real) (h : ∀ y ∈ l, y = c) : listVar l = 0 := by
  rcases l with _ | ⟨a, l⟩
  · simp [listVar]
  · have hlen : ((a :: l).length : Real) ≠ 0 := by
      have : 0 < (a :: l).length := List.length_pos.mpr (by simp)
      exact_mod_cast this.ne'
    have hmean : listMean (a :: l) = c := by
      unfold listMean
      rw [List.sum_eq_card_nsmul _ c h, nsmul_eq_mul, mul_div_cancel_left₀ _ hlen]
    unfold listVar
    rw [List.sum_eq_zero, zero_div]
    intro y hy
    obtain ⟨z, hz, rfl⟩ := List.mem_map.mp hy
    rw [hmean, h z hz]
    ring

lemma userRatings_attack_const (choice : List Int → Nat → List Int) (df : Store)
    (A T : Int) (n : Nat) (x : Real) (hA : A ∉ df.map Obs.user) :
    ∀ y ∈ userRatings (simulate_attack choice df A T n x) A, y = x := by
  intro y hy
  unfold userRatings at hy
  obtain ⟨r, hr, rfl⟩ := List.mem_map.mp hy
  have hrA : r.user = A := by simpa using (List.mem_filter.mp hr).2
  have hrm : r ∈ simulate_attack choice df A T n x := (List.mem_filter.mp hr).1
  unfold simulate_attack at hrm
  simp only [List.mem_append, List.mem_cons, List.mem_map] at hrm
  rcases hrm with hdf | h1 | ⟨it, _, rfl⟩
  · exact absurd (by rw [← hrA]; exact List.mem_map_of_mem Obs.user hdf) hA
  · rw [h1]
  · rfl

/-- C3: for every store, fresh attacker id `A`, target `T`, any push count
and extreme rating, applying `apply_defense` (any `tau`) to the store
produced by `simulate_attack` leaves every observation of attacker `A`
unchanged and equal to the extreme rating: all of `A`'s ratings are
identical, so `A`'s standard deviation is `0`, below the `1e-6` threshold. -/
theorem defense_keeps_attacker (choice : List Int → Nat → List Int) (df : Store)
    (A T : Int) (n : Nat) (x tau : Real) (hA : A ∉ df.map Obs.user) :
    ∀ r ∈ apply_defense (simulate_attack choice df A T n x) tau,
      r.user = A → r.rating = x := by
  intro r hr hru
  unfold apply_defense at hr
  obtain ⟨r0, hr0, rfl⟩ := List.mem_map.mp hr
  have hstd : listStd (userRatings (simulate_attack choice df A T n x) A) = 0 := by
    unfold listStd
    rw [listVar_const _ x (userRatings_attack_const choice df A T n x hA),
      Real.sqrt_zero]
  have hr0A : r0.user = A := by
    rw [← defenseRow_user (simulate_attack choice df A T n x) tau r0]
    exact hru
  have hpass : defenseRow (simulate_attack choice df A T n x) tau r0 = r0 := by
    unfold defenseRow
    rw [hr0A, hstd]
    rw [if_pos (by norm_num)]
  rw [hpass]
  have hmem : r0.rating ∈ userRatings (simulate_attack choice df A T n x) A := by
    unfold userRatings
    exact List.mem_map_of_mem _ (List.mem_filter.mpr ⟨hr0, by simp [hr0A]⟩)
  exact userRatings_attack_const choice df A T n x hA _ hmem

/-- C3 witness: the theorem applied to the concrete store `dfA` with
attacker `2`, target `7`, one push, extreme rating `5` and `tau = 3/2`. -/
theorem defense_keeps_attacker_witness :
    ((2:Int) ∉ dfA.map Obs.user) ∧
      ∀ r ∈ apply_defense (simulate_attack takeChoice dfA 2 7 1 5) (3/2),
        r.user = 2 → r.rating = 5 :=
  ⟨by decide, defense_keeps_attacker takeChoice dfA 2 7 1 5 (3/2) (by decide)⟩

lemma simulate_attack_eq (choice : List Int → Nat → List Int) (df : Store)
    (A T : Int) (n : Nat) (x : Real) :
    simulate_attack choice df A T n x =
      df ++ (Obs.mk A T x :: (pushList choice df T n).map (fun it => Obs.mk A it x)) := rfl

lemma mem_otherItems {df : Store} {T i : Int} :
    i ∈ otherItems df T ↔ i ∈ df.map Obs.item ∧ i ≠ T := by
  unfold otherItems
  simp [List.mem_filter, mem_uniqueFirst]

lemma otherItems_nodup (df : Store) (T : Int) : (otherItems df T).Nodup :=
  (nodup_uniqueFirst _).filter _

lemma pushList_spec (choice : List Int → Nat → List Int) (df : Store) (T : Int)
    (n : Nat) (hch : ChoiceValid choice) :
    (pushList choice df T n).length = min n (otherItems df T).length ∧
      (pushList choice df T n).Nodup ∧
      ∀ a ∈ pushList choice df T n, a ∈ otherItems df T := by
  unfold pushList
  split
  · rename_i hlt
    obtain ⟨h1, h2, h3⟩ := hch (otherItems df T) n (otherItems_nodup df T) hlt.le
    exact ⟨by rw [h1, Nat.min_eq_left hlt.le], h2, h3⟩
  · rename_i hge
    push_neg at hge
    exact ⟨(Nat.min_eq_right hge).symm, otherItems_nodup df T, fun a ha => ha⟩

lemma listMean_append_le (l : List Real) (c : Real) (hc : 0 ≤ c)
    (h : ∀ y ∈ l, y ≤ c) : listMean l ≤ listMean (l ++ [c]) := by
  rcases eq_or_ne l [] with rfl | hne
  · simpa [listMean] using hc
  · have hk0 : 0 < l.length := List.length_pos.mpr hne
    have hk : (0:Real) < l.length := by exact_mod_cast hk0
    have hsum : l.sum ≤ l.length * c := by
      have := List.sum_le_card_nsmul l c h
      rwa [nsmul_eq_mul] at this
    unfold listMean
    rw [List.sum_append, List.length_append]
    simp only [List.sum_cons, List.sum_nil, add_zero, List.length_cons,
      List.length_nil, Nat.zero_add]
    push_cast
    rw [div_le_div_iff₀ hk (by linarith)]
    nlinarith

lemma attack_itemRatings_target (choice : List Int → Nat → List Int) (df : Store)
    (A T : Int) (n : Nat) (x : Real) (hch : ChoiceValid choice) :
    itemRatings (simulate_attack choice df A T n x) T = itemRatings df T ++ [x] := by
  rw [simulate_attack_eq]
  unfold itemRatings
  rw [List.filter_append, List.map_append]
  congr 1
  rw [List.filter_cons]
  have hT : ((Obs.mk A T x).item == T) = true := by simp
  rw [if_pos hT]
  have hrest : ((pushList choice df T n).map (fun it => Obs.mk A it x)).filter
      (fun r => r.item == T) = [] := by
    rw [List.filter_map, List.filter_eq_nil_iff.mpr]
    · rfl
    · intro it hit
      have : it ≠ T := (mem_otherItems.mp ((pushList_spec choice df T n hch).2.2 it hit)).2
      simp [Function.comp, this]
  rw [hrest]
  rfl

/-- C1 (amended: assuming every rating already in the store is at most the
extreme rating `5.0`): `simulate_attack` returns the original observations
unchanged (as a prefix), followed by exactly one observation `(A, T, 5.0)`
and exactly `min n |other items|` additional observations for `A`, each on a
distinct item different from `T`, all with rating `5.0`, the extra items
drawn without replacement from the items other than `T` by the fixed-seed
deterministic draw; and item `T`'s mean rating does not decrease. -/
theorem simulate_attack_spec (choice : List Int → Nat → List Int) (df : Store)
    (A T : Int) (n : Nat) (hch : ChoiceValid choice) (hA : A ∉ df.map Obs.user)
    (hb : ∀ r ∈ df, r.rating ≤ 5) :
    (simulate_attack choice df A T n 5).take df.length = df ∧
      (simulate_attack choice df A T n 5).filter
        (fun r => r.user == A && r.item == T) = [Obs.mk A T 5] ∧
      ((simulate_attack choice df A T n 5).filter
        (fun r => r.user == A && r.item != T)).length =
          min n (otherItems df T).length ∧
      (((simulate_attack choice df A T n 5).filter
        (fun r => r.user == A && r.item != T)).map Obs.item).Nodup ∧
      (∀ r ∈ (simulate_attack choice df A T n 5).filter
        (fun r => r.user == A && r.item != T), r.item ≠ T ∧ r.rating = 5) ∧
      itemMean df T ≤ itemMean (simulate_attack choice df A T n 5) T := by
  obtain ⟨hlen, hnd, hsub⟩ := pushList_spec choice df T n hch
  have hdfA : ∀ r ∈ df, r.user ≠ A := by
    intro r hr hcon
    exact hA (hcon ▸ List.mem_map_of_mem Obs.user hr)
  have hne : ∀ it ∈ pushList choice df T n, it ≠ T := by
    intro it hit
    exact (mem_otherItems.mp (hsub it hit)).2
  have hfil2 : (simulate_attack choice df A T n 5).filter
      (fun r => r.user == A && r.item == T) = [Obs.mk A T 5] := by
    rw [simulate_attack_eq, List.filter_append]
    rw [List.filter_eq_nil_iff.mpr (by
      intro r hr
      simp only [Bool.and_eq_true, beq_iff_eq, not_and]
      intro h1
      exact absurd h1 (hdfA r hr))]
    rw [List.nil_append, List.filter_cons]
    simp only [beq_self_eq_true, Bool.and_self, if_true]
    rw [List.filter_map, List.filter_eq_nil_iff.mpr (by
      intro it hit
      simp [Function.comp, hne it hit])]
    rfl
  have hfil3 : (simulate_attack choice df A T n 5).filter
      (fun r => r.user == A && r.item != T) =
        (pushList choice df T n).map (fun it => Obs.mk A it 5) := by
    rw [simulate_attack_eq, List.filter_append]
    rw [List.filter_eq_nil_iff.mpr (by
      intro r hr
      simp only [Bool.and_eq_true, beq_iff_eq, not_and]
      intro h1
      exact absurd h1 (hdfA r hr))]
    rw [List.nil_append, List.filter_cons]
    simp only [beq_self_eq_true, bne_self_eq_false, Bool.and_false,
      Bool.false_eq_true, if_false]
    rw [List.filter_map, List.filter_eq_self.mpr (by
      intro it hit
      simp [Function.comp, hne it hit])]
  refine ⟨?_, hfil2, ?_, ?_, ?_, ?_⟩
  · rw [simulate_attack_eq]
    exact List.take_left df _
  · rw [hfil3, List.length_map, hlen]
  · rw [hfil3, List.map_map]
    have : (Obs.item ∘ fun it => Obs.mk A it 5) = id := rfl
    rw [this, List.map_id]
    exact hnd
  · intro r hr
    rw [hfil3] at hr
    obtain ⟨it, hit, rfl⟩ := List.mem_map.mp hr
    exact ⟨hne it hit, rfl⟩
  · unfold itemMean
    rw [attack_itemRatings_target choice df A T n 5 hch]
    apply listMean_append_le _ _ (by norm_num)
    intro y hy
    obtain ⟨r, hr, rfl⟩ := List.mem_map.mp hy
    exact hb r (List.mem_filter.mp hr).1

lemma takeChoice_valid : ChoiceValid takeChoice := by
  intro l n h1 h2
  refine ⟨List.length_take_of_le h2, h1.sublist (List.take_sublist n l), ?_⟩
  intro a ha
  exact (List.take_sublist n l).mem ha

/-- C1 witness: the theorem applied to `dfA` (ratings `3, 4, 2 ≤ 5`), fresh
attacker `2`, target `7`, push count `1`, with the take-draw. -/
theorem simulate_attack_spec_witness :
    ChoiceValid takeChoice ∧ ((2:Int) ∉ dfA.map Obs.user) ∧
      (∀ r ∈ dfA, r.rating ≤ 5) ∧
      ((simulate_attack takeChoice dfA 2 7 1 5).take dfA.length = dfA ∧
        (simulate_attack takeChoice dfA 2 7 1 5).filter
          (fun r => r.user == 2 && r.item == 7) = [Obs.mk 2 7 5] ∧
        ((simulate_attack takeChoice dfA 2 7 1 5).filter
          (fun r => r.user == 2 && r.item != 7)).length =
            min 1 (otherItems dfA 7).length ∧
        (((simulate_attack takeChoice dfA 2 7 1 5).filter
          (fun r => r.user == 2 && r.item != 7)).map Obs.item).Nodup ∧
        (∀ r ∈ (simulate_attack takeChoice dfA 2 7 1 5).filter
          (fun r => r.user == 2 && r.item != 7), r.item ≠ 7 ∧ r.rating = 5) ∧
        itemMean dfA 7 ≤ itemMean (simulate_attack takeChoice dfA 2 7 1 5) 7) :=
  ⟨takeChoice_valid, by decide, by
      intro r hr
      simp only [dfA, List.mem_cons, List.not_mem_nil, or_false] at hr
      rcases hr with rfl | rfl | rfl <;> norm_num,
    simulate_attack_spec takeChoice dfA 2 7 1 takeChoice_valid (by decide) (by
      intro r hr
      simp only [dfA, List.mem_cons, List.not_mem_nil, or_false] at hr
      rcases hr with rfl | rfl | rfl <;> norm_num)⟩

/-- C1 counterexample: on the store `dfC1`, whose only rating of the target
item `7` is `6 > 5`, the attacked store's mean for item `7` is `11/2 < 6`,
refuting the claimed mean inequality for an arbitrary ratings store. -/
theorem simulate_attack_spec_cex :
    ¬ itemMean dfC1 7 ≤ itemMean (simulate_attack takeChoice dfC1 2 7 0 5) 7 := by
  have h1 : itemRatings dfC1 7 = [6] := rfl
  have h2 : itemMean dfC1 7 = 6 := by
    unfold itemMean
    rw [h1]
    unfold listMean
    norm_num
  have h3 : itemMean (simulate_attack takeChoice dfC1 2 7 0 5) 7 = 11 / 2 := by
    unfold itemMean
    rw [attack_itemRatings_target takeChoice dfC1 2 7 0 5 takeChoice_valid, h1]
    unfold listMean
    norm_num [List.sum_cons]
  rw [h2, h3]
  norm_num

lemma mem_candidateItems {df : Store} {uid j : Int} :
    j ∈ candidateItems df uid ↔ j ∈ modelItems df ∧ 0 < scoreAt df uid j := by
  unfold candidateItems
  simp [List.mem_filter]

lemma rankedCandidates_perm (df : Store) (uid : Int) :
    List.Perm (rankedCandidates df uid) (candidateItems df uid) :=
  List.perm_insertionSort _ _

lemma recommendM_cands (df : Store) (uid : Int) (k : Nat)
    (h1 : uid ∈ modelUsers df) (h2 : ratedItems df uid ≠ [])
    (h3 : candidateItems df uid ≠ []) :
    recommendM df uid k =
      ((rankedCandidates df uid).take k).map (fun j => (j, scoreAt df uid j)) := by
  unfold recommendM
  rw [if_pos h1, if_neg h2, if_neg h3]

lemma recommendM_mem (df : Store) (uid : Int) (k : Nat)
    (h1 : uid ∈ modelUsers df) (h2 : ratedItems df uid ≠ [])
    (h3 : candidateItems df uid ≠ []) (p : Int × Real)
    (hp : p ∈ recommendM df uid k) :
    p.1 ∈ candidateItems df uid ∧ p.2 = scoreAt df uid p.1 := by
  rw [recommendM_cands df uid k h1 h2 h3] at hp
  obtain ⟨j, hj, rfl⟩ := List.mem_map.mp hp
  have hj2 : j ∈ rankedCandidates df uid := (List.take_sublist _ _).subset hj
  exact ⟨(rankedCandidates_perm df uid).mem_iff.mp hj2, rfl⟩

lemma scoreAt_rated (df : Store) (uid j : Int) (h : 0 < Rmat df uid j) :
    scoreAt df uid j = 0 := by
  unfold scoreAt
  rw [if_pos h]

/-- C6 (amended: provided the candidate set is nonempty): for every known
user `u` with at least one rated item and every `top_k`, no item returned by
`recommend` is an item `u` has already rated (`R[u, item] > 0`). -/
theorem recommend_unrated (df : Store) (uid : Int) (k : Nat)
    (h1 : uid ∈ modelUsers df) (h2 : ratedItems df uid ≠ [])
    (h3 : candidateItems df uid ≠ []) :
    ∀ p ∈ recommendM df uid k, ¬ 0 < Rmat df uid p.1 := by
  intro p hp hrated
  have hc := (recommendM_mem df uid k h1 h2 h3 p hp).1
  have hs := (mem_candidateItems.mp hc).2
  rw [scoreAt_rated df uid p.1 hrated] at hs
  exact lt_irrefl 0 hs

/-- C8 (amended: provided the candidate set is nonempty; an empty candidate
set instead falls back to the popularity list): when fewer than `top_k`
candidates have strictly positive score, `recommend` returns exactly those
candidates and nothing more. -/
theorem recommend_no_padding (df : Store) (uid : Int) (k : Nat)
    (h1 : uid ∈ modelUsers df) (h2 : ratedItems df uid ≠ [])
    (h3 : candidateItems df uid ≠ [])
    (h4 : (candidateItems df uid).length < k) :
    List.Perm ((recommendM df uid k).map Prod.fst) (candidateItems df uid) := by
  rw [recommendM_cands df uid k h1 h2 h3, List.map_map]
  have hid : (Prod.fst ∘ fun j => (j, scoreAt df uid j)) = id := rfl
  rw [hid, List.map_id]
  have hlen : (rankedCandidates df uid).length = (candidateItems df uid).length :=
    (rankedCandidates_perm df uid).length_eq
  rw [List.take_of_length_le (by rw [hlen]; exact h4.le)]
  exact rankedCandidates_perm df uid

/-- C5 (amended: the zero-similarity exclusion and the positive-score
guarantee apply to the candidate branch, i.e. when the candidate set is
nonempty; items skipped with score `0` can still resurface through the
popularity fallback when no candidate exists): for every known user `u` with
at least one rated item, the predicted score of an unrated item `j` with
some nonzero similarity to a rated item is the similarity-weighted formula
with the `1e-8` denominator guard; items whose similarity to every rated
item is exactly `0` keep score `0` and are not returned; and every returned
entry has a strictly positive score. -/
theorem recommend_scores (df : Store) (uid : Int) (k : Nat)
    (h1 : uid ∈ modelUsers df) (h2 : ratedItems df uid ≠ [])
    (h3 : candidateItems df uid ≠ []) :
    (∀ j : Int, ¬ 0 < Rmat df uid j → (∃ i ∈ ratedItems df uid, simM df j i ≠ 0) →
        scoreAt df uid j =
          ((ratedItems df uid).map (fun i => simM df j i * Rmat df uid i)).sum /
            (((ratedItems df uid).map (fun i => |simM df j i|)).sum + 1e-8)) ∧
      (∀ j : Int, (∀ i ∈ ratedItems df uid, simM df j i = 0) →
        scoreAt df uid j = 0 ∧ j ∉ (recommendM df uid k).map Prod.fst) ∧
      ∀ p ∈ recommendM df uid k, 0 < p.2 := by
  refine ⟨?_, ?_, ?_⟩
  · intro j hur hex
    unfold scoreAt
    rw [if_neg hur, if_neg (fun hall => by
      obtain ⟨i, hi, hni⟩ := hex
      exact hni (hall i hi))]
  · intro j hall
    have hs : scoreAt df uid j = 0 := by
      by_cases hr : 0 < Rmat df uid j
      · exact scoreAt_rated df uid j hr
      · unfold scoreAt
        rw [if_neg hr, if_pos hall]
    refine ⟨hs, ?_⟩
    intro hmem
    obtain ⟨p, hp, hp1⟩ := List.mem_map.mp hmem
    have hc := (recommendM_mem df uid k h1 h2 h3 p hp).1
    have hpos := (mem_candidateItems.mp hc).2
    rw [hp1, hs] at hpos
    exact lt_irrefl 0 hpos
  · intro p hp
    obtain ⟨hc, he⟩ := recommendM_mem df uid k h1 h2 h3 p hp
    rw [he]
    exact (mem_candidateItems.mp hc).2

lemma popRel_total (df : Store) : ∀ a b : Int, popRel df a b ∨ popRel df b a := by
  intro a b
  unfold popRel
  rcases lt_trichotomy (itemMean df a) (itemMean df b) with h | h | h
  · exact Or.inr (Or.inl h)
  · rcases lt_trichotomy (itemCount df a) (itemCount df b) with h2 | h2 | h2
    · exact Or.inr (Or.inr ⟨h.symm, Or.inl h2⟩)
    · rcases le_total a b with hab | hab
      · exact Or.inl (Or.inr ⟨h, Or.inr ⟨h2, hab⟩⟩)
      · exact Or.inr (Or.inr ⟨h.symm, Or.inr ⟨h2.symm, hab⟩⟩)
    · exact Or.inl (Or.inr ⟨h, Or.inl h2⟩)
  · exact Or.inl (Or.inl h)

lemma popRel_trans (df : Store) {a b c : Int}
    (h1 : popRel df a b) (h2 : popRel df b c) : popRel df a c := by
  unfold popRel at h1 h2 ⊢
  rcases h1 with h1 | ⟨h1e, h1r⟩
  · rcases h2 with h2 | ⟨h2e, h2r⟩
    · exact Or.inl (h2.trans h1)
    · exact Or.inl (by rw [← h2e]; exact h1)
  · rcases h2 with h2 | ⟨h2e, h2r⟩
    · exact Or.inl (by rw [h1e]; exact h2)
    · refine Or.inr ⟨h1e.trans h2e, ?_⟩
      rcases h1r with h1r | ⟨h1c, h1le⟩
      · rcases h2r with h2r | ⟨h2c, h2le⟩
        · exact Or.inl (h2r.trans h1r)
        · exact Or.inl (by rw [← h2c]; exact h1r)
      · rcases h2r with h2r | ⟨h2c, h2le⟩
        · exact Or.inl (by rw [h1c]; exact h2r)
        · exact Or.inr ⟨h1c.trans h2c, h1le.trans h2le⟩

/-- C7 (amended: the code has no all-items fallback — when no item reaches
the `count >= 20` threshold the popularity list is simply empty): the
popularity list is precomputed by grouping ratings by `item_id`, keeping the
per-item mean and count for items with `count >= 20`, sorting by mean
descending then count descending, and a `recommend` query for an unknown
`user_id` returns exactly the first `top_k` entries of this list. -/
theorem cold_user_popularity (df : Store) (uid : Int) (k : Nat)
    (h : uid ∉ modelUsers df) :
    recommendM df uid k = (popularList df).take k ∧
      (∀ i : Int, i ∈ (popularList df).map Prod.fst ↔
        i ∈ modelItems df ∧ 20 ≤ itemCount df i) ∧
      (∀ p ∈ popularList df, p.2 = itemMean df p.1) ∧
      ((popularList df).map Prod.fst).Pairwise (popRel df) := by
  have hid : (Prod.fst ∘ fun i : Int => (i, itemMean df i)) = id := rfl
  refine ⟨by unfold recommendM; rw [if_neg h], ?_, ?_, ?_⟩
  · intro i
    unfold popularList
    rw [List.map_map, hid, List.map_id]
    rw [List.mem_insertionSort]
    simp [List.mem_filter]
  · intro p hp
    unfold popularList at hp
    obtain ⟨i, _, rfl⟩ := List.mem_map.mp hp
    rfl
  · unfold popularList
    rw [List.map_map, hid, List.map_id]
    haveI : IsTotal Int (popRel df) := ⟨popRel_total df⟩
    haveI : IsTrans Int (popRel df) := ⟨fun a b c => popRel_trans df⟩
    exact List.sorted_insertionSort _ _

lemma popularList_dfT : popularList dfT = [] := by
  unfold popularList
  rw [show (modelItems dfT).filter (fun i => decide (20 ≤ itemCount dfT i)) = []
    from by decide]
  rfl

lemma popularListSpec_dfT : popularListSpec dfT = [(1, itemMean dfT 1)] := by
  simp only [popularListSpec]
  rw [show (modelItems dfT).filter (fun i => decide (20 ≤ itemCount dfT i)) = []
    from by decide]
  rw [if_pos rfl]
  rw [show modelItems dfT = [1] from by decide]
  rfl

/-- C7 witness: the amended theorem applied to the store `dfT` and the cold
user id `99`, which does not occur in the store. -/
theorem cold_user_popularity_witness :
    ((99:Int) ∉ modelUsers dfT) ∧
      (recommendM dfT 99 5 = (popularList dfT).take 5 ∧
        (∀ i : Int, i ∈ (popularList dfT).map Prod.fst ↔
          i ∈ modelItems dfT ∧ 20 ≤ itemCount dfT i) ∧
        (∀ p ∈ popularList dfT, p.2 = itemMean dfT p.1) ∧
        ((popularList dfT).map Prod.fst).Pairwise (popRel dfT)) :=
  ⟨by decide, cold_user_popularity dfT 99 5 (by decide)⟩

/-- C7 counterexample: on the one-observation store `dfT` no item reaches
the count-20 threshold, so the spec's claimed all-items fallback would make
a cold query return item 1, but the code's popularity list is empty and the
cold query returns `[]`. -/
theorem cold_user_popularity_cex :
    ((99:Int) ∉ modelUsers dfT) ∧
      recommendM dfT 99 5 ≠ (popularListSpec dfT).take 5 := by
  refine ⟨by decide, ?_⟩
  have h1 : recommendM dfT 99 5 = [] := by
    unfold recommendM
    rw [if_neg (by decide : ¬ (99:Int) ∈ modelUsers dfT), popularList_dfT]
    rfl
  rw [h1, popularListSpec_dfT]
  simp

lemma Rmat_dfOne_1_1 : Rmat dfOne 1 1 = 4 := by
  simp [Rmat, dfOne, List.foldl_cons, List.foldl_nil]

lemma modelItems_dfOne : modelItems dfOne = [1] := by decide

lemma ratedItems_dfOne : ratedItems dfOne 1 = [1] := by
  unfold ratedItems
  rw [modelItems_dfOne, List.filter_cons, List.filter_nil, Rmat_dfOne_1_1]
  norm_num [decide_eq_true_eq]

lemma scoreAt_dfOne : scoreAt dfOne 1 1 = 0 :=
  scoreAt_rated dfOne 1 1 (by rw [Rmat_dfOne_1_1]; norm_num)

lemma candidateItems_dfOne : candidateItems dfOne 1 = [] := by
  unfold candidateItems
  rw [modelItems_dfOne, List.filter_cons, List.filter_nil, scoreAt_dfOne]
  norm_num [decide_eq_true_eq]

lemma itemMean_dfOne : itemMean dfOne 1 = 4 := by
  unfold itemMean listMean
  rw [show itemRatings dfOne 1 = List.replicate 20 (4:Real) from rfl,
    List.sum_replicate, List.length_replicate, nsmul_eq_mul]
  norm_num

lemma popularList_dfOne : popularList dfOne = [(1, itemMean dfOne 1)] := by
  unfold popularList
  rw [show (modelItems dfOne).filter (fun i => decide (20 ≤ itemCount dfOne i)) = [1]
    from by decide]
  rfl

lemma recommendM_dfOne : recommendM dfOne 1 5 = [(1, itemMean dfOne 1)] := by
  unfold recommendM
  rw [if_pos (by decide : (1:Int) ∈ modelUsers dfOne)]
  rw [if_neg (by rw [ratedItems_dfOne]; simp)]
  rw [if_pos candidateItems_dfOne, popularList_dfOne]
  rfl

/-- C6 counterexample: on `dfOne`, user 1 is known and has rated item 1 (the
store's only item), the candidate set is empty, and the popularity fallback
returns item 1 — an item user 1 has already rated — refuting the claim as
stated. -/
theorem recommend_unrated_cex :
    (1:Int) ∈ modelUsers dfOne ∧ ratedItems dfOne 1 ≠ [] ∧
      ((1:Int), itemMean dfOne 1) ∈ recommendM dfOne 1 5 ∧ 0 < Rmat dfOne 1 1 := by
  refine ⟨by decide, by rw [ratedItems_dfOne]; simp, ?_,
    by rw [Rmat_dfOne_1_1]; norm_num⟩
  rw [recommendM_dfOne]
  simp

/-- C8 counterexample: on `dfOne`, user 1's candidate set is empty, yet
`recommend` returns the nonempty popularity list instead of the empty list
the claim demands. -/
theorem recommend_no_padding_cex :
    candidateItems dfOne 1 = [] ∧ recommendM dfOne 1 5 ≠ [] := by
  refine ⟨candidateItems_dfOne, ?_⟩
  rw [recommendM_dfOne]
  simp

lemma sqrt_25 : Real.sqrt 25 = 5 := by
  rw [show (25:Real) = 5 ^ 2 by norm_num, Real.sqrt_sq (by norm_num : (0:Real) ≤ 5)]

lemma sqrt_9 : Real.sqrt 9 = 3 := by
  rw [show (9:Real) = 3 ^ 2 by norm_num, Real.sqrt_sq (by norm_num : (0:Real) ≤ 3)]

lemma modelUsers_dfW : modelUsers dfW = [1, 2] := by decide

lemma modelItems_dfW : modelItems dfW = [10, 20] := by decide

lemma Rmat_dfW_1_10 : Rmat dfW 1 10 = 3 := by
  simp [Rmat, dfW, List.foldl_cons, List.foldl_nil]

lemma Rmat_dfW_1_20 : Rmat dfW 1 20 = 0 := by
  simp [Rmat, dfW, List.foldl_cons, List.foldl_nil]

lemma Rmat_dfW_2_10 : Rmat dfW 2 10 = 4 := by
  simp [Rmat, dfW, List.foldl_cons, List.foldl_nil]

lemma Rmat_dfW_2_20 : Rmat dfW 2 20 = 3 := by
  simp [Rmat, dfW, List.foldl_cons, List.foldl_nil]

lemma dotI_dfW_20_10 : dotI dfW 20 10 = 12 := by
  unfold dotI
  rw [modelUsers_dfW]
  simp only [List.map_cons, List.map_nil, List.sum_cons, List.sum_nil]
  rw [Rmat_dfW_1_20, Rmat_dfW_1_10, Rmat_dfW_2_20, Rmat_dfW_2_10]
  norm_num

lemma dotI_dfW_10_10 : dotI dfW 10 10 = 25 := by
  unfold dotI
  rw [modelUsers_dfW]
  simp only [List.map_cons, List.map_nil, List.sum_cons, List.sum_nil]
  rw [Rmat_dfW_1_10, Rmat_dfW_2_10]
  norm_num

lemma dotI_dfW_20_20 : dotI dfW 20 20 = 9 := by
  unfold dotI
  rw [modelUsers_dfW]
  simp only [List.map_cons, List.map_nil, List.sum_cons, List.sum_nil]
  rw [Rmat_dfW_1_20, Rmat_dfW_2_20]
  norm_num

lemma normAdj_dfW_10 : normAdj dfW 10 = 5 := by
  unfold normAdj normI
  rw [dotI_dfW_10_10, sqrt_25]
  rw [if_neg (by norm_num)]

lemma normAdj_dfW_20 : normAdj dfW 20 = 3 := by
  unfold normAdj normI
  rw [dotI_dfW_20_20, sqrt_9]
  rw [if_neg (by norm_num)]

lemma simM_dfW_20_10 : simM dfW 20 10 = 4 / 5 := by
  unfold simM clipVal
  rw [dotI_dfW_20_10, normAdj_dfW_20, normAdj_dfW_10]
  norm_num

lemma ratedItems_dfW : ratedItems dfW 1 = [10] := by
  unfold ratedItems
  rw [modelItems_dfW, List.filter_cons, List.filter_cons, List.filter_nil,
    Rmat_dfW_1_10, Rmat_dfW_1_20]
  norm_num [decide_eq_true_eq]

lemma scoreAt_dfW_10 : scoreAt dfW 1 10 = 0 :=
  scoreAt_rated dfW 1 10 (by rw [Rmat_dfW_1_10]; norm_num)

lemma scoreAt_dfW_20_pos : 0 < scoreAt dfW 1 20 := by
  unfold scoreAt
  rw [if_neg (by rw [Rmat_dfW_1_20]; exact lt_irrefl 0)]
  rw [if_neg (by
    intro hall
    have := hall 10 (by rw [ratedItems_dfW]; simp)
    rw [simM_dfW_20_10] at this
    norm_num at this)]
  rw [ratedItems_dfW]
  simp only [List.map_cons, List.map_nil, List.sum_cons, List.sum_nil]
  rw [simM_dfW_20_10, Rmat_dfW_1_10]
  rw [abs_of_pos (by norm_num : (0:Real) < 4 / 5)]
  apply div_pos <;> norm_num

lemma candidateItems_dfW : candidateItems dfW 1 = [20] := by
  unfold candidateItems
  rw [modelItems_dfW, List.filter_cons, List.filter_cons, List.filter_nil]
  simp only [decide_eq_true_eq]
  rw [scoreAt_dfW_10]
  rw [if_neg (lt_irrefl 0), if_pos scoreAt_dfW_20_pos]

lemma ratedItems_dfW_ne : ratedItems dfW 1 ≠ [] := by
  rw [ratedItems_dfW]
  simp

lemma candidateItems_dfW_ne : candidateItems dfW 1 ≠ [] := by
  rw [candidateItems_dfW]
  simp

/-- C5 witness: the amended theorem applied to the store `dfW` and user `1`,
whose candidate set `[20]` is nonempty. -/
theorem recommend_scores_witness :
    ((1:Int) ∈ modelUsers dfW ∧ ratedItems dfW 1 ≠ [] ∧
        candidateItems dfW 1 ≠ []) ∧
      ((∀ j : Int, ¬ 0 < Rmat dfW 1 j → (∃ i ∈ ratedItems dfW 1, simM dfW j i ≠ 0) →
          scoreAt dfW 1 j =
            ((ratedItems dfW 1).map (fun i => simM dfW j i * Rmat dfW 1 i)).sum /
              (((ratedItems dfW 1).map (fun i => |simM dfW j i|)).sum + 1e-8)) ∧
        (∀ j : Int, (∀ i ∈ ratedItems dfW 1, simM dfW j i = 0) →
          scoreAt dfW 1 j = 0 ∧ j ∉ (recommendM dfW 1 5).map Prod.fst) ∧
        ∀ p ∈ recommendM dfW 1 5, 0 < p.2) :=
  ⟨⟨by decide, ratedItems_dfW_ne, candidateItems_dfW_ne⟩,
    recommend_scores dfW 1 5 (by decide) ratedItems_dfW_ne candidateItems_dfW_ne⟩

/-- C6 witness: the amended theorem applied to `dfW` and user `1`. -/
theorem recommend_unrated_witness :
    ((1:Int) ∈ modelUsers dfW ∧ ratedItems dfW 1 ≠ [] ∧
        candidateItems dfW 1 ≠ []) ∧
      ∀ p ∈ recommendM dfW 1 5, ¬ 0 < Rmat dfW 1 p.1 :=
  ⟨⟨by decide, ratedItems_dfW_ne, candidateItems_dfW_ne⟩,
    recommend_unrated dfW 1 5 (by decide) ratedItems_dfW_ne candidateItems_dfW_ne⟩

/-- C8 witness: the amended theorem applied to `dfW`, user `1` and
`top_k = 5`: there is exactly one candidate, fewer than `top_k`. -/
theorem recommend_no_padding_witness :
    ((1:Int) ∈ modelUsers dfW ∧ ratedItems dfW 1 ≠ [] ∧
        candidateItems dfW 1 ≠ [] ∧ (candidateItems dfW 1).length < 5) ∧
      List.Perm ((recommendM dfW 1 5).map Prod.fst) (candidateItems dfW 1) :=
  ⟨⟨by decide, ratedItems_dfW_ne, candidateItems_dfW_ne,
      by rw [candidateItems_dfW]; norm_num⟩,
    recommend_no_padding dfW 1 5 (by decide) ratedItems_dfW_ne
      candidateItems_dfW_ne (by rw [candidateItems_dfW]; norm_num)⟩

lemma modelUsers_dfZ : modelUsers dfZ =
    [1, 2, 3, 4, 5, 6, 7, 8, 9, 10, 11, 12, 13, 14, 15, 16, 17, 18, 19, 20, 21] := by
  decide

lemma modelItems_dfZ : modelItems dfZ = [1, 2] := by decide

lemma Rmat_dfZ_1_1 : Rmat dfZ 1 1 = 3 := by
  simp [Rmat, dfZ, List.foldl_cons, List.foldl_nil]

lemma Rmat_dfZ_1_2 : Rmat dfZ 1 2 = 0 := by
  simp [Rmat, dfZ, List.foldl_cons, List.foldl_nil]

lemma dotI_dfZ_2_1 : dotI dfZ 2 1 = 0 := by
  unfold dotI
  rw [modelUsers_dfZ]
  simp only [List.map_cons, List.map_nil, List.sum_cons, List.sum_nil]
  norm_num [Rmat, dfZ, List.foldl_cons, List.foldl_nil]

lemma simM_dfZ_2_1 : simM dfZ 2 1 = 0 := by
  unfold simM clipVal
  rw [dotI_dfZ_2_1, zero_div]
  norm_num

lemma ratedItems_dfZ : ratedItems dfZ 1 = [1] := by
  unfold ratedItems
  rw [modelItems_dfZ, List.filter_cons, List.filter_cons, List.filter_nil,
    Rmat_dfZ_1_1, Rmat_dfZ_1_2]
  norm_num [decide_eq_true_eq]

lemma scoreAt_dfZ_1 : scoreAt dfZ 1 1 = 0 :=
  scoreAt_rated dfZ 1 1 (by rw [Rmat_dfZ_1_1]; norm_num)

lemma scoreAt_dfZ_2 : scoreAt dfZ 1 2 = 0 := by
  unfold scoreAt
  rw [if_neg (by rw [Rmat_dfZ_1_2]; exact lt_irrefl 0)]
  rw [if_pos (by
    intro i hi
    rw [ratedItems_dfZ] at hi
    simp only [List.mem_cons, List.not_mem_nil, or_false] at hi
    rw [hi]
    exact simM_dfZ_2_1)]

lemma candidateItems_dfZ : candidateItems dfZ 1 = [] := by
  unfold candidateItems
  rw [modelItems_dfZ, List.filter_cons, List.filter_cons, List.filter_nil]
  simp only [decide_eq_true_eq]
  rw [scoreAt_dfZ_1, scoreAt_dfZ_2]
  rw [if_neg (lt_irrefl 0), if_neg (lt_irrefl 0)]

lemma popularList_dfZ : popularList dfZ = [(2, itemMean dfZ 2)] := by
  unfold popularList
  rw [show (modelItems dfZ).filter (fun i => decide (20 ≤ itemCount dfZ i)) = [2]
    from by decide]
  rfl

lemma recommendM_dfZ : recommendM dfZ 1 5 = [(2, itemMean dfZ 2)] := by
  unfold recommendM
  rw [if_pos (by decide : (1:Int) ∈ modelUsers dfZ)]
  rw [if_neg (by rw [ratedItems_dfZ]; simp)]
  rw [if_pos candidateItems_dfZ, popularList_dfZ]
  rfl

/-- C5 counterexample: on `dfZ`, user 1 is known and has rated exactly item
1, item 2's similarity to every rated item is exactly `0`, yet item 2 is
returned by `recommend` (through the popularity fallback), refuting the
claim's "excluded" clause as stated. -/
theorem recommend_scores_cex :
    (1:Int) ∈ modelUsers dfZ ∧ ratedItems dfZ 1 = [1] ∧ simM dfZ 2 1 = 0 ∧
      ((2:Int), itemMean dfZ 2) ∈ recommendM dfZ 1 5 := by
  refine ⟨by decide, ratedItems_dfZ, simM_dfZ_2_1, ?_⟩
  rw [recommendM_dfZ]
  simp
